import Mathlib

/-!
Verification of the Brio-Kernel host coordination layer.

Shallow embedding of the Rust sources under src/brio-core/:
kernel/src/host.rs (BrioHostState), kernel/src/mesh/mod.rs (Payload,
MeshMessage), kernel/src/ws/broadcaster.rs (Broadcaster,
BroadcastReceiver), components/supervisor/src/wit_bindings.rs (native
stubs). Asynchronous suspension points (bounded-channel send, oneshot
reply, broadcast recv) are modelled by passing the environment outcome
(channel liveness, arriving reply) as explicit parameters, so every
embedded operation is a total function whose value records both the
messages it delivered and the result the caller observes.
-/

/-- Payload, from kernel/src/mesh/mod.rs: tagged union of a JSON string
or raw bytes. Bytes are modelled as a list of naturals. -/
inductive Payload where
  | Json (s : String)
  | Binary (bs : List Nat)
deriving DecidableEq, Repr

/-- MeshMessage, from kernel/src/mesh/mod.rs. The oneshot reply slot
(reply_tx) is modelled by the reply-environment parameter of mesh_call
rather than stored in the message. -/
structure MeshMessage where
  target : String
  method : String
  payload : Payload
deriving DecidableEq, Repr

/-- The local dispatch table of BrioHostState (mesh_router field of
kernel/src/host.rs): a map from component id to the inbound channel
handle, modelled as a function to an optional channel identifier.
HashMap::insert overwrite semantics become function update. -/
def MeshRouter : Type := String → Option Nat

/-- BrioHostState::register_component (host.rs lines 44-47): inserts or
overwrites the dispatch entry for the id; last registration wins. -/
def BrioHostState.register_component (router : MeshRouter) (id : String) (ch : Nat) :
    MeshRouter :=
  fun t => if t = id then some ch else router t

/-- BrioHostState::mesh_call (host.rs lines 67-92). Parameters beyond
the call arguments describe the environment at the suspension points:
`recvAlive ch` is whether the receiving end of channel `ch` is still
alive (send fails otherwise), and `reply` is what arrives on the oneshot
reply channel (`none` when the reply sender was dropped without a
reply). The first component of the result lists every message delivered
to an inbound channel during the call; the second is the value the
caller observes. -/
def BrioHostState.mesh_call (router : MeshRouter) (recvAlive : Nat → Bool)
    (reply : Option (Except String Payload)) (target method : String)
    (payload : Payload) : List (Nat × MeshMessage) × Except String Payload :=
  match router target with
  | none =>
      ([], Except.error ("Target component \x27" ++ target ++ "\x27 not found"))
  | some ch =>
      if recvAlive ch then
        let msg : MeshMessage := ⟨target, method, payload⟩
        match reply with
        | none =>
            ([(ch, msg)],
              Except.error ("Failed to receive reply from target \x27" ++ target
                ++ "\x27: channel closed"))
        | some (Except.ok p) => ([(ch, msg)], Except.ok p)
        | some (Except.error e) =>
            ([(ch, msg)],
              Except.error ("Target \x27" ++ target ++ "\x27 returned error: " ++ e))
      else
        ([], Except.error ("Failed to send message to target \x27" ++ target
          ++ "\x27: channel closed"))

/-- WsPatch, from kernel/src/ws (types.rs is not under src/; the patch
content is opaque to the broadcaster, modelled as a string). -/
def WsPatch : Type := String
deriving DecidableEq, Repr

/-- BroadcastMessage, from kernel/src/ws: a content Patch or Shutdown. -/
inductive BroadcastMessage where
  | Patch (p : WsPatch)
  | Shutdown
deriving DecidableEq, Repr

/-- WsError, as used by kernel/src/ws/broadcaster.rs. Only the
ChannelClosed variant appears in the broadcaster (types.rs itself is not
under src/). -/
inductive WsError where
  | ChannelClosed
deriving DecidableEq, Repr

/-- The error type of tokio broadcast Receiver::recv, the channel used
by the Broadcaster: Closed when every sender is gone, Lagged n when the
receiver fell behind and n messages were dropped for it. -/
inductive RecvError where
  | Closed
  | Lagged (count : Nat)
deriving DecidableEq, Repr

/-- BroadcastReceiver::recv (broadcaster.rs lines 70-78): the inner
tokio receive outcome is mapped into the Broadcaster error type. Closed
becomes WsError.ChannelClosed; Lagged logs the skip count and then also
becomes WsError.ChannelClosed. -/
def BroadcastReceiver.recv (inner : Except RecvError BroadcastMessage) :
    Except WsError BroadcastMessage :=
  match inner with
  | Except.ok m => Except.ok m
  | Except.error RecvError.Closed => Except.error WsError.ChannelClosed
  | Except.error (RecvError.Lagged _) => Except.error WsError.ChannelClosed

/-- The send of tokio broadcast Sender, as used by Broadcaster::broadcast:
it fails (returning the message) exactly when no receiver is currently
subscribed, and otherwise reports the receiver count. -/
def broadcastChannelSend (receiver_count : Nat) (message : BroadcastMessage) :
    Except BroadcastMessage Nat :=
  if receiver_count = 0 then Except.error message else Except.ok receiver_count

/-- Broadcaster::broadcast (broadcaster.rs lines 36-47): both arms of the
match on the channel send return Ok, so a send failure from having no
subscribers is absorbed. -/
def Broadcaster.broadcast (receiver_count : Nat) (message : BroadcastMessage) :
    Except WsError Unit :=
  match broadcastChannelSend receiver_count message with
  | Except.ok _ => Except.ok ()
  | Except.error _ => Except.ok ()

/-- The word size of the AtomicUsize client counter of the Broadcaster. -/
def usizeSize : Nat := 2 ^ 64

/-- Broadcaster::subscribe (broadcaster.rs lines 27-34), restricted to its
effect on the client_count field: fetch_add(1) on an AtomicUsize, which
wraps at the word size. -/
def Broadcaster.subscribe_count (c : Nat) : Nat := (c + 1) % usizeSize

/-- Drop for BroadcastReceiver (broadcaster.rs lines 81-89), restricted to
its effect on the client_count field: fetch_sub(1) on an AtomicUsize,
which wraps at the word size. -/
def BroadcastReceiver.drop_count (c : Nat) : Nat := (c + (usizeSize - 1)) % usizeSize

/-- A lifecycle event on one Broadcaster: a subscribe() call or the
release (Drop) of one previously returned BroadcastReceiver. -/
inductive BEvent where
  | subscribeEv
  | dropEv
deriving DecidableEq, Repr

/-- The client_count update performed by one lifecycle event. -/
def BEvent.countStep (c : Nat) : BEvent → Nat
  | BEvent.subscribeEv => Broadcaster.subscribe_count c
  | BEvent.dropEv => BroadcastReceiver.drop_count c

/-- The value of the client_count counter after a sequence of lifecycle
events, starting from the count `c`. Broadcaster::new starts it at 0. -/
def clientCountFrom (c : Nat) : List BEvent → Nat
  | [] => c
  | e :: es => clientCountFrom (BEvent.countStep c e) es

/-- A lifecycle trace is valid for a current number `l` of live receivers
when every drop event releases a receiver that actually exists: each
BroadcastReceiver is created by exactly one subscribe() and dropped at
most once, so drops never outnumber prior subscribes. -/
def ValidTrace (l : Nat) : List BEvent → Prop
  | [] => True
  | BEvent.subscribeEv :: es => ValidTrace (l + 1) es
  | BEvent.dropEv :: es => 0 < l ∧ ValidTrace (l - 1) es

/-- The number of live BroadcastReceiver handles after a trace, starting
from `l` live handles. -/
def liveReceivers (l : Nat) : List BEvent → Nat
  | [] => l
  | BEvent.subscribeEv :: es => liveReceivers (l + 1) es
  | BEvent.dropEv :: es => liveReceivers (l - 1) es

/-- The number of subscribe events in a trace. -/
def subscribeCount : List BEvent → Nat
  | [] => 0
  | BEvent.subscribeEv :: es => subscribeCount es + 1
  | BEvent.dropEv :: es => subscribeCount es

/-- The state of a transactional workspace session (spec section 4.4):
Open, then terminally Committed or Abandoned. -/
inductive SessionState where
  | Open
  | Committed
  | Abandoned
deriving DecidableEq, Repr

/-- SessionManager bookkeeping: a fresh-id counter and, per issued
session id, the base path and current state. Terminal sessions stay
recorded, so the ids appearing in `sessions` are exactly the ids ever
issued. Modelled from the spec: kernel/src/vfs/manager.rs is not under
src/ (host.rs only wraps it in a mutex and delegates); spec section 4.4
gives the contract. -/
structure SessionManager where
  next_id : Nat
  sessions : List (String × String × SessionState)
deriving DecidableEq, Repr

/-- SessionManager::new: no sessions issued yet. -/
def SessionManager.new : SessionManager := ⟨0, []⟩

/-- The state recorded for a session id, if the id was ever issued. -/
def sessionLookup : List (String × String × SessionState) → String → Option SessionState
  | [], _ => none
  | (i, _, s) :: rest, id => if i = id then some s else sessionLookup rest id

/-- Replace the state recorded for a session id. -/
def sessionSet : List (String × String × SessionState) → String → SessionState →
    List (String × String × SessionState)
  | [], _, _ => []
  | (i, p, s) :: rest, id, v =>
      if i = id then (i, p, v) :: rest else (i, p, s) :: sessionSet rest id v

/-- SessionManager::begin_session. Modelled from the spec (section 4.4):
allocates a fresh session id rooted at base_path and records it Open.
The validity check of base_path against the resource tree belongs to the
tree, which is outside this core; the claims settled here only concern
ids that begin_session actually returned. -/
def SessionManager.begin_session (m : SessionManager) (base_path : String) :
    Except String (String × SessionManager) :=
  let id := "session-" ++ toString m.next_id
  Except.ok (id, ⟨m.next_id + 1, (id, base_path, SessionState.Open) :: m.sessions⟩)

/-- SessionManager::commit_session. Modelled from the spec (section 4.4):
transitions an Open session to Committed; fails with an unknown-session
error if the id was never issued or is already terminal. -/
def SessionManager.commit_session (m : SessionManager) (session_id : String) :
    Except String SessionManager :=
  match sessionLookup m.sessions session_id with
  | some SessionState.Open =>
      Except.ok ⟨m.next_id, sessionSet m.sessions session_id SessionState.Committed⟩
  | some _ => Except.error ("unknown session: " ++ session_id)
  | none => Except.error ("unknown session: " ++ session_id)

/-- PrefixPolicy key rewriting. Modelled from the spec:
kernel/src/store/policy.rs is not under src/ (store/mod.rs only
re-exports it); spec section 4.3 says the policy "deterministically
rewrites every key to be scope-prefixed" and never denies. The claims
proved about it do not depend on the separator chosen here. -/
def PrefixPolicy.rewrite (scope key : String) : String := scope ++ ":" ++ key

/-- The key-value view of the SQL backend behind the store. -/
def Backend : Type := String → Option String

/-- A store write of a logical key under a scope. Modelled from the spec
(section 4.3): kernel/src/store/impl.rs is not under src/; every
operation passes through the policy before touching the backend, so the
backend key written is the policy rewrite of the logical key. -/
def SqlStore.writeKey (scope key value : String) (b : Backend) : Backend :=
  fun k => if k = PrefixPolicy.rewrite scope key then some value else b k

/-- A store read of a logical key under a scope. Modelled from the spec
(section 4.3): the backend key read is the policy rewrite of the logical
key. -/
def SqlStore.readKey (scope key : String) (b : Backend) : Option String :=
  b (PrefixPolicy.rewrite scope key)

/-- The policy value boxed into a SqlStore by BrioHostState::get_store.
PrefixPolicy is a unit struct constructed without the scope. -/
inductive StorePolicy where
  | prefixPolicy
deriving DecidableEq, Repr

/-- SqlStore as constructed by SqlStore::new(pool, policy): the pooled
connection handle (an opaque handle here; cloning a pool yields the same
shared pool) together with the boxed policy. -/
structure SqlStore where
  pool : Nat
  policy : StorePolicy
deriving DecidableEq, Repr

/-- BrioHostState::get_store (host.rs lines 53-55): the scope argument
is bound as _scope and unused; the store is built from a clone of the
shared db_pool and a fresh PrefixPolicy. -/
def BrioHostState.get_store (db_pool : Nat) (_scope : String) : SqlStore :=
  ⟨db_pool, StorePolicy.prefixPolicy⟩

/-- Row, from components/supervisor/src/wit_bindings.rs. -/
structure Row where
  columns : List String
  values : List String
deriving DecidableEq, Repr

/-- sql_state::query outside wasm32 (wit_bindings.rs lines 38-43): the
native stub ignores its arguments and returns an empty row list. -/
def sql_state.query (_sql : String) (_params : List String) :
    Except String (List Row) :=
  Except.ok []

/-- sql_state::execute outside wasm32 (wit_bindings.rs lines 57-62): the
native stub ignores its arguments and returns 0 affected rows. -/
def sql_state.execute (_sql : String) (_params : List String) :
    Except String Nat :=
  Except.ok 0

/-- service_mesh::call outside wasm32 (wit_bindings.rs lines 97-102):
the native stub ignores its arguments and returns the fixed accepted
JSON payload. -/
def service_mesh.call (_target _method : String) (_args : Payload) :
    Except String Payload :=
  Except.ok (Payload.Json "\x7b\"status\":\"accepted\"\x7d")

/-- The prefix rewrite of the same logical key under two scopes coincides
only when the scopes coincide: the scope part cancels on the right. -/
theorem PrefixPolicy.rewrite_scope_injective (a b k : String)
    (h : PrefixPolicy.rewrite a k = PrefixPolicy.rewrite b k) : a = b := by
  unfold PrefixPolicy.rewrite at h
  have hd : a.data ++ (":".data ++ k.data) = b.data ++ (":".data ++ k.data) := by
    have := congrArg String.data h
    simpa [String.data_append, List.append_assoc] using this
  have : a.data = b.data := List.append_cancel_right hd
  cases a; cases b; simp_all

/-- C1: for distinct scopes a and b, the prefix policy rewrites the same
logical key to distinct backend keys, so a key written through the store
under scope a is never visible to a read of the same logical key under
scope b: the read observes exactly what it would observe without that
write. -/
theorem prefix_policy_cross_scope_isolation (a b key value : String)
    (store : Backend) (hab : a ≠ b) :
    PrefixPolicy.rewrite a key ≠ PrefixPolicy.rewrite b key ∧
      SqlStore.readKey b key (SqlStore.writeKey a key value store) =
        SqlStore.readKey b key store := by
  have hk : PrefixPolicy.rewrite a key ≠ PrefixPolicy.rewrite b key := by
    intro h
    exact hab (PrefixPolicy.rewrite_scope_injective a b key h)
  refine ⟨hk, ?_⟩
  unfold SqlStore.readKey SqlStore.writeKey
  rw [if_neg (fun h => hk h.symm)]

/-- Witness for prefix_policy_cross_scope_isolation at the concrete
scopes "alice" and "bob" with key "k", value "v" and an empty backend. -/
theorem prefix_policy_cross_scope_isolation_witness :
    PrefixPolicy.rewrite "alice" "k" ≠ PrefixPolicy.rewrite "bob" "k" ∧
      SqlStore.readKey "bob" "k"
          (SqlStore.writeKey "alice" "k" "v" (fun _ => none)) =
        SqlStore.readKey "bob" "k" (fun _ => none) :=
  prefix_policy_cross_scope_isolation "alice" "bob" "k" "v" (fun _ => none)
    (by decide)

/-- C2: a mesh_call to a component id registered via register_component,
with a live inbound channel, delivers exactly one MeshMessage carrying
the given method and payload into the channel of that component, and the
caller observes exactly the reply the component sent: Ok p for a reply
Ok p, and an error wrapping e for a reply Err e. -/
theorem mesh_call_registered_delivery (router : MeshRouter)
    (recvAlive : Nat → Bool) (id : String) (ch : Nat) (method : String)
    (payload : Payload) (r : Except String Payload)
    (halive : recvAlive ch = true) :
    BrioHostState.mesh_call (BrioHostState.register_component router id ch)
        recvAlive (some r) id method payload =
      ([(ch, ⟨id, method, payload⟩)],
        match r with
        | Except.ok p => Except.ok p
        | Except.error e =>
            Except.error ("Target \x27" ++ id ++ "\x27 returned error: " ++ e)) := by
  unfold BrioHostState.mesh_call BrioHostState.register_component
  simp only [if_pos rfl, halive, if_true]
  cases r <;> rfl

/-- Witness for mesh_call_registered_delivery: the spec scenario, where
component "B" is registered on channel 0, is called with method "ping"
and payload Json "hi", and replies Ok (Json "pong"); the caller observes
Ok (Json "pong") and exactly one message was delivered to channel 0. -/
theorem mesh_call_registered_delivery_witness :
    BrioHostState.mesh_call
        (BrioHostState.register_component (fun _ => none) "B" 0)
        (fun _ => true) (some (Except.ok (Payload.Json "pong"))) "B" "ping"
        (Payload.Json "hi") =
      ([(0, ⟨"B", "ping", Payload.Json "hi"⟩)],
        Except.ok (Payload.Json "pong")) :=
  mesh_call_registered_delivery (fun _ => none) (fun _ => true) "B" 0 "ping"
    (Payload.Json "hi") (Except.ok (Payload.Json "pong")) rfl

/-- C4: a mesh_call to a target id absent from the local dispatch table
returns the not-found error and delivers nothing; the result is the same
for every channel-liveness and reply environment, so the call resolves
without consulting any reply: it cannot block waiting for one. In
standalone mode the local table is the only table consulted, so this
covers every target id when the table is empty. -/
theorem mesh_call_unregistered_not_found (router : MeshRouter)
    (recvAlive : Nat → Bool) (reply : Option (Except String Payload))
    (target method : String) (payload : Payload)
    (habsent : router target = none) :
    BrioHostState.mesh_call router recvAlive reply target method payload =
      ([], Except.error ("Target component \x27" ++ target ++ "\x27 not found")) := by
  unfold BrioHostState.mesh_call
  rw [habsent]

/-- Witness for mesh_call_unregistered_not_found: the empty dispatch
table of a freshly constructed standalone host, target "ghost". -/
theorem mesh_call_unregistered_not_found_witness :
    BrioHostState.mesh_call (fun _ => none) (fun _ => true) none "ghost" "m"
        (Payload.Json "x") =
      ([], Except.error ("Target component \x27ghost\x27 not found")) :=
  mesh_call_unregistered_not_found (fun _ => none) (fun _ => true) none "ghost"
    "m" (Payload.Json "x") rfl

/-- C5: if the target drops the reply slot without sending (the reply
environment delivers nothing), the waiting caller observes the
failed-to-receive error: the call resolves with an error rather than
suspending forever. -/
theorem mesh_call_reply_dropped_is_error (router : MeshRouter)
    (recvAlive : Nat → Bool) (target : String) (ch : Nat) (method : String)
    (payload : Payload) (hreg : router target = some ch)
    (halive : recvAlive ch = true) :
    BrioHostState.mesh_call router recvAlive none target method payload =
      ([(ch, ⟨target, method, payload⟩)],
        Except.error ("Failed to receive reply from target \x27" ++ target
          ++ "\x27: channel closed")) := by
  unfold BrioHostState.mesh_call
  rw [hreg]
  simp [halive]

/-- Witness for mesh_call_reply_dropped_is_error: component "W" on
channel 2, reply slot dropped. -/
theorem mesh_call_reply_dropped_is_error_witness :
    BrioHostState.mesh_call (fun t => if t = "W" then some 2 else none)
        (fun _ => true) none "W" "m" (Payload.Binary [1, 2]) =
      ([(2, ⟨"W", "m", Payload.Binary [1, 2]⟩)],
        Except.error "Failed to receive reply from target \x27W\x27: channel closed") :=
  mesh_call_reply_dropped_is_error (fun t => if t = "W" then some 2 else none)
    (fun _ => true) "W" 2 "m" (Payload.Binary [1, 2]) rfl rfl

/-- C8: Broadcaster::broadcast with zero subscribed receivers returns
success for every message: the failing channel send is matched to Ok. -/
theorem broadcast_zero_subscribers_ok (message : BroadcastMessage) :
    Broadcaster.broadcast 0 message = Except.ok () := rfl

/-- C9: outside the wasm32 sandbox the guest-facing entry points are
deterministic no-op stubs: sql_state.query returns Ok of the empty row
list, sql_state.execute returns Ok 0, and service_mesh.call returns a
successful fixed payload, for all arguments. -/
theorem native_stubs_noop :
    (∀ sql params, sql_state.query sql params = Except.ok [] ∧
        sql_state.execute sql params = Except.ok 0) ∧
      ∀ target method args, service_mesh.call target method args =
        Except.ok (Payload.Json "\x7b\"status\":\"accepted\"\x7d") :=
  ⟨fun _ _ => ⟨rfl, rfl⟩, fun _ _ _ => rfl⟩

/-- C10: BrioHostState::get_store ignores its scope argument: for one
host (one shared pool) and any two scopes the constructed SqlStore
values are equal, each holding the shared pool and a PrefixPolicy built
without the scope. -/
theorem get_store_scope_independent (db_pool : Nat) (s1 s2 : String) :
    BrioHostState.get_store db_pool s1 = BrioHostState.get_store db_pool s2 := rfl

/-- C3 counterexample: at the concrete inner outcome Lagged 3 (the
receiver lagged by 3 messages while senders are still alive — lag is by
definition not the all-senders-gone case), BroadcastReceiver::recv
returns the channel-closed error instead of absorbing the lag, refuting
the claim that recv only returns a channel-closed error when all senders
are gone. -/
theorem recv_lagged_counterexample :
    BroadcastReceiver.recv (Except.error (RecvError.Lagged 3)) =
        Except.error WsError.ChannelClosed ∧
      RecvError.Lagged 3 ≠ RecvError.Closed :=
  ⟨rfl, by decide⟩

/-- C3 amended: BroadcastReceiver::recv forwards a received message
unchanged, and maps every inner receive error — closure and lag alike —
to WsError.ChannelClosed; the lag skip count is reported only through a
warning log, so from the returned value lag is indistinguishable from
all senders being gone. -/
theorem recv_error_mapping (inner : Except RecvError BroadcastMessage) :
    BroadcastReceiver.recv inner =
      match inner with
      | Except.ok m => Except.ok m
      | Except.error _ => Except.error WsError.ChannelClosed := by
  cases inner with
  | ok m => rfl
  | error e => cases e <;> rfl

/-- C6: a session id freshly issued by begin_session can be committed
exactly once — the first commit_session succeeds and a second
commit_session with the same id fails with a session error — and
commit_session with an id never issued (not recorded in the manager,
whose session list retains terminal sessions and so lists exactly the
issued ids) fails with a session error. -/
theorem session_commit_exactly_once (m : SessionManager) (p : String) :
    (∀ id m1, m.begin_session p = Except.ok (id, m1) →
        ∃ m2, m1.commit_session id = Except.ok m2 ∧
          ∃ e, m2.commit_session id = Except.error e) ∧
      ∀ id, sessionLookup m.sessions id = none →
        ∃ e, m.commit_session id = Except.error e := by
  constructor
  · intro id m1 h
    unfold SessionManager.begin_session at h
    simp only [Except.ok.injEq, Prod.mk.injEq] at h
    obtain ⟨hid, hm1⟩ := h
    subst hid
    subst hm1
    refine ⟨⟨m.next_id + 1,
      ("session-" ++ toString m.next_id, p, SessionState.Committed) :: m.sessions⟩,
      ?_, ?_⟩
    · unfold SessionManager.commit_session
      simp [sessionLookup, sessionSet]
    · unfold SessionManager.commit_session
      simp [sessionLookup]
  · intro id h
    unfold SessionManager.commit_session
    rw [h]
    exact ⟨_, rfl⟩

/-- Witness for session_commit_exactly_once: beginning a session on the
fresh manager issues "session-0"; committing it once succeeds, twice
fails, and committing the never-issued id "nope" fails. -/
theorem session_commit_exactly_once_witness :
    (∃ m2, SessionManager.commit_session
          ⟨1, [("session-0", "/ws", SessionState.Open)]⟩ "session-0" =
        Except.ok m2 ∧
        ∃ e, m2.commit_session "session-0" = Except.error e) ∧
      ∃ e, SessionManager.new.commit_session "nope" = Except.error e :=
  ⟨(session_commit_exactly_once SessionManager.new "/ws").1 "session-0"
      ⟨1, [("session-0", "/ws", SessionState.Open)]⟩ rfl,
    (session_commit_exactly_once SessionManager.new "/ws").2 "nope" rfl⟩

/-- The counter update of each event never wraps on a valid trace:
starting from l live receivers, the counter tracks the live count
exactly, provided the live count can never reach the word size (bounded
by l plus the number of subscribes in the trace). -/
theorem clientCountFrom_eq_liveReceivers (t : List BEvent) :
    ∀ l, ValidTrace l t → l + subscribeCount t < usizeSize →
      clientCountFrom l t = liveReceivers l t := by
  induction t with
  | nil => intro l _ _; rfl
  | cons e es ih =>
      intro l hv hb
      cases e with
      | subscribeEv =>
          have hlt : l + 1 < usizeSize := by
            have : l + 1 ≤ l + subscribeCount (BEvent.subscribeEv :: es) := by
              simp [subscribeCount]
            omega
          have hstep : BEvent.countStep l BEvent.subscribeEv = l + 1 := by
            simp [BEvent.countStep, Broadcaster.subscribe_count,
              Nat.mod_eq_of_lt hlt]
          simp only [clientCountFrom, liveReceivers, hstep]
          refine ih (l + 1) hv ?_
          simp [subscribeCount] at hb
          omega
      | dropEv =>
          obtain ⟨hpos, hv'⟩ := hv
          have hl : l < usizeSize := by
            have : subscribeCount (BEvent.dropEv :: es) = subscribeCount es := by
              simp [subscribeCount]
            omega
          have hstep : BEvent.countStep l BEvent.dropEv = l - 1 := by
            have h1 : l + (usizeSize - 1) = (l - 1) + usizeSize := by
              have hpos' : 1 ≤ l := hpos
              have hu : 1 ≤ usizeSize := by norm_num [usizeSize]
              omega
            simp only [BEvent.countStep, BroadcastReceiver.drop_count, h1,
              Nat.add_mod_right]
            exact Nat.mod_eq_of_lt (by omega)
          simp only [clientCountFrom, liveReceivers, hstep]
          refine ih (l - 1) hv' ?_
          simp [subscribeCount] at hb
          omega

/-- C7: subscribe() increments client_count by exactly one and releasing
a receiver decrements it by exactly one (within the counter word size),
and along every valid receiver-lifecycle trace from a fresh Broadcaster
— valid meaning each drop releases a receiver that a prior subscribe
created, and with fewer subscribes than the word size — the counter read
equals the number of currently live BroadcastReceiver handles. -/
theorem client_count_equals_live_receivers :
    (∀ c, c + 1 < usizeSize → Broadcaster.subscribe_count c = c + 1) ∧
      (∀ c, 0 < c → c < usizeSize → BroadcastReceiver.drop_count c = c - 1) ∧
      ∀ t, ValidTrace 0 t → subscribeCount t < usizeSize →
        clientCountFrom 0 t = liveReceivers 0 t := by
  refine ⟨fun c hc => ?_, fun c hc0 hc => ?_, fun t hv hb => ?_⟩
  · simp [Broadcaster.subscribe_count, Nat.mod_eq_of_lt hc]
  · have h1 : c + (usizeSize - 1) = (c - 1) + usizeSize := by
      have hu : 1 ≤ usizeSize := by norm_num [usizeSize]
      omega
    simp only [BroadcastReceiver.drop_count, h1, Nat.add_mod_right]
    exact Nat.mod_eq_of_lt (by omega)
  · exact clientCountFrom_eq_liveReceivers t 0 hv (by omega)

/-- Witness for client_count_equals_live_receivers: two subscribers give
a count of 2; dropping one gives a count of 1; the concrete trace
subscribe, subscribe, drop yields a counter equal to its live receiver
count. -/
theorem client_count_equals_live_receivers_witness :
    Broadcaster.subscribe_count 1 = 1 + 1 ∧
      BroadcastReceiver.drop_count 2 = 2 - 1 ∧
      clientCountFrom 0 [BEvent.subscribeEv, BEvent.subscribeEv, BEvent.dropEv] =
        liveReceivers 0 [BEvent.subscribeEv, BEvent.subscribeEv, BEvent.dropEv] :=
  ⟨client_count_equals_live_receivers.1 1 (by norm_num [usizeSize]),
    client_count_equals_live_receivers.2.1 2 (by norm_num)
      (by norm_num [usizeSize]),
    client_count_equals_live_receivers.2.2
      [BEvent.subscribeEv, BEvent.subscribeEv, BEvent.dropEv]
      (by simp [ValidTrace]) (by norm_num [subscribeCount, usizeSize])⟩
